import Mathlib

/-!
Verification of the reference-list component of the repository
(`src/frontend/src/components/References.tsx`): a shallow embedding of its
citation formatter (`formatCitation`), its filter/sort pipeline
(`filteredAndSortedReferences`), its year-range helper (`getYearRange`) and
its clipboard/download export, together with theorems settling the spec's
claims about them.

JavaScript values are embedded as follows: strings are `String`, arrays are
`List`, `string | undefined` optional fields are `Option String` (with the
template-literal behaviour that interpolating `undefined` produces the text
"undefined"), `number` fields used only through their ordering
(`relevance_score`) are `Int`, and counters (`citations_count`) are `Nat`.
-/

/-- A bibliographic reference record: the `Reference` interface of
`References.tsx` (lines 20–33).  The TypeScript optional fields `doi?`,
`url?`, `pages?`, `volume?`, `issue?` are `Option String`. -/
structure Reference where
  id : String
  title : String
  authors : List String
  journal : String
  year : String
  doi : Option String := none
  url : Option String := none
  pages : Option String := none
  volume : Option String := none
  issue : Option String := none
  relevance_score : Int := 0
  citations_count : Nat := 0
  deriving DecidableEq

/-- Truthiness of a JavaScript string: falsy exactly for the empty string. -/
def strTruthy (s : String) : Bool := s != ""

/-- Truthiness of a JavaScript `string | undefined` value: `undefined` and
the empty string are falsy. -/
def optTruthy : Option String → Bool
  | none => false
  | some s => s != ""

/-- Template-literal interpolation of a `string | undefined` value:
interpolating `undefined` produces the literal text "undefined". -/
def optInterp : Option String → String
  | none => "undefined"
  | some s => s

/-- Coercion of a string array to a string, as happens when an array is
concatenated onto a string in JavaScript: elements joined by ",". -/
def jsArrStr (l : List String) : String := String.intercalate "," l

/-- The call `Array.prototype.slice(-1)`: the last element as a one-element array
(the empty array on an empty array). -/
def lastSlice (l : List String) : List String := l.drop (l.length - 1)

/-- Indexing `authors[0]` as used in a string position: out-of-range indexing yields
`undefined`, which interpolates as the text "undefined". -/
def jsIndex (l : List String) (i : Nat) : String := (l.get? i).getD "undefined"

/-- The method `String.prototype.toLowerCase`, with the ASCII case mapping (full
Unicode case mapping is not needed by any claim and is not modelled). -/
def jsToLower (s : String) : String := String.mk (s.toList.map Char.toLower)

/-- Substring containment on character lists: `sub` occurs in `s` iff it is
a prefix of some suffix of `s`. -/
def containsSub (s sub : List Char) : Bool :=
  match s with
  | [] => sub.isEmpty
  | List.cons _ tail => sub.isPrefixOf s || containsSub tail sub

/-- The method `String.prototype.includes`: substring containment; the empty string is
contained in every string. -/
def jsIncludes (s sub : String) : Bool := containsSub s.toList sub.toList

/-- The `case 'apa'` branch of `formatCitation` (lines 107–119): APA author
list (`", & "` before the last author when there are at most 7, otherwise
first six then `", ... "` then the last), `(year). title. `, then journal,
volume and pages each guarded by truthiness, then the DOI link. -/
def apaCitation (ref : Reference) : String :=
  let authors := ref.authors
  let apaAuthors :=
    if authors.length = 1 then jsIndex authors 0
    else if authors.length ≤ 7 then
      String.intercalate ", " authors.dropLast ++ ", & " ++ jsArrStr (lastSlice authors)
    else
      String.intercalate ", " (authors.take 6) ++ ", ... " ++ jsArrStr (lastSlice authors)
  let c := apaAuthors ++ " (" ++ ref.year ++ "). " ++ ref.title ++ ". "
  let c :=
    if strTruthy ref.journal then
      let c := c ++ ref.journal
      let c := if optTruthy ref.volume then c ++ ", " ++ optInterp ref.volume else c
      if optTruthy ref.pages then c ++ ", " ++ optInterp ref.pages else c
    else c
  if optTruthy ref.doi then c ++ " https://doi.org/" ++ optInterp ref.doi else c

/-- The `case 'mla'` branch of `formatCitation` (lines 121–132): `", and "`
author list, quoted title, then journal, `vol.`, and either
`", year, pp. pages"` or `", year"`; no DOI is ever appended. -/
def mlaCitation (ref : Reference) : String :=
  let authors := ref.authors
  let mlaAuthors :=
    if authors.length = 1 then jsIndex authors 0
    else String.intercalate ", " authors.dropLast ++ ", and " ++ jsArrStr (lastSlice authors)
  let c := mlaAuthors ++ ". \"" ++ ref.title ++ ".\" "
  if strTruthy ref.journal then
    let c := c ++ ref.journal
    let c := if optTruthy ref.volume then c ++ ", vol. " ++ optInterp ref.volume else c
    if optTruthy ref.pages then c ++ ", " ++ ref.year ++ ", pp. " ++ optInterp ref.pages
    else c ++ ", " ++ ref.year
  else c

/-- The `case 'chicago'` branch of `formatCitation` (lines 134–146): `",
and "` author list, quoted title, journal, bare volume, then — when pages
are truthy — `", no. ${issue} (${year}): ${pages}"` (note that `issue` is
interpolated without its own guard), otherwise `" (year)"`, then the DOI
link. -/
def chicagoCitation (ref : Reference) : String :=
  let authors := ref.authors
  let chicagoAuthors :=
    if authors.length = 1 then jsIndex authors 0
    else String.intercalate ", " authors.dropLast ++ ", and " ++ jsArrStr (lastSlice authors)
  let c := chicagoAuthors ++ ". \"" ++ ref.title ++ ".\" "
  let c :=
    if strTruthy ref.journal then
      let c := c ++ ref.journal
      let c := if optTruthy ref.volume then c ++ " " ++ optInterp ref.volume else c
      if optTruthy ref.pages then
        c ++ ", no. " ++ optInterp ref.issue ++ " (" ++ ref.year ++ "): " ++ optInterp ref.pages
      else c ++ " (" ++ ref.year ++ ")"
    else c
  if optTruthy ref.doi then c ++ " https://doi.org/" ++ optInterp ref.doi else c

/-- The `case 'ieee'` branch of `formatCitation` (lines 148–160): authors
joined by `", "` (first three then `" et al."` beyond six), quoted title,
then — only when the journal is truthy — journal, `vol.`, `pp.` and finally
`", year"`; no DOI is ever appended. -/
def ieeeCitation (ref : Reference) : String :=
  let authors := ref.authors
  let ieeeAuthors :=
    if authors.length = 1 then jsIndex authors 0
    else if authors.length ≤ 6 then String.intercalate ", " authors
    else String.intercalate ", " (authors.take 3) ++ " et al."
  let c := ieeeAuthors ++ ", \"" ++ ref.title ++ ",\" "
  if strTruthy ref.journal then
    let c := c ++ ref.journal
    let c := if optTruthy ref.volume then c ++ ", vol. " ++ optInterp ref.volume else c
    let c := if optTruthy ref.pages then c ++ ", pp. " ++ optInterp ref.pages else c
    c ++ ", " ++ ref.year
  else c

/-- The `default` branch of `formatCitation` (lines 162–163). -/
def defaultCitation (ref : Reference) : String :=
  String.intercalate ", " ref.authors ++ " (" ++ ref.year ++ "). " ++ ref.title ++ ". "
    ++ ref.journal

/-- The function `formatCitation` from `References.tsx` (lines 96–165): a string-keyed
switch over the style dispatching to the per-style branches above. -/
def formatCitation (ref : Reference) (style : String) : String :=
  if style = "apa" then apaCitation ref
  else if style = "mla" then mlaCitation ref
  else if style = "chicago" then chicagoCitation ref
  else if style = "ieee" then ieeeCitation ref
  else defaultCitation ref

/-- The sort keys of the list view: the TypeScript union
`'relevance' | 'year' | 'citations' | 'alphabetical'` (line 49). -/
inductive SortBy where
  | relevance
  | year
  | citations
  | alphabetical
  deriving DecidableEq

/-- The filter predicate of `filteredAndSortedReferences` (lines 57–65):
`matchesSearch && matchesYear`, where the search term is matched
case-insensitively against the title, any author, or the journal, and
`!filterYear` is string falsiness (empty string). -/
def matchesQuery (searchTerm filterYear : String) (ref : Reference) : Bool :=
  let matchesSearch :=
    jsIncludes (jsToLower ref.title) (jsToLower searchTerm) ||
    ref.authors.any (fun author => jsIncludes (jsToLower author) (jsToLower searchTerm)) ||
    jsIncludes (jsToLower ref.journal) (jsToLower searchTerm)
  let matchesYear := filterYear == "" || ref.year == filterYear
  matchesSearch && matchesYear

/-- The digits-prefix value used by `jsParseInt`: `none` when the input
does not start with a digit, otherwise the value of its longest decimal
digit prefix. -/
def digitsVal (cs : List Char) : Option Nat :=
  let ds := cs.takeWhile Char.isDigit
  if ds.isEmpty then none
  else some (ds.foldl (fun acc c => acc * 10 + (c.toNat - Char.toNat (Char.ofNat 48))) 0)

/-- JavaScript `parseInt` on decimal strings: skip leading whitespace, an
optional sign, then the longest digit prefix; `none` models NaN (no digit
found).  Radix auto-detection for "0x" prefixes is not modelled: every
string the component parses is a decimal year. -/
def jsParseInt (s : String) : Option Int :=
  match s.toList.dropWhile Char.isWhitespace with
  | List.cons '-' rest => (digitsVal rest).map (fun n => -(n : Int))
  | List.cons '+' rest => (digitsVal rest).map (fun n => (n : Int))
  | cs => (digitsVal cs).map (fun n => (n : Int))

/-- The method `String.prototype.localeCompare`, modelled as code-point order (the
real result is locale-dependent; the sort only uses its sign). -/
def jsLocaleCompare (a b : String) : Int :=
  if a < b then -1 else if b < a then 1 else 0

/-- The numeric comparator of the sort stage (lines 68–81).  A comparator
value of NaN — possible for `year` when a year string does not parse — is
treated as `0`, exactly as ECMAScript's `SortCompare` does.  The `default`
branch of the switch is unreachable because `sortBy` is the closed union
`SortBy`. -/
def sortCompare (sortBy : SortBy) (a b : Reference) : Int :=
  match sortBy with
  | SortBy.relevance => b.relevance_score - a.relevance_score
  | SortBy.year =>
    match jsParseInt b.year, jsParseInt a.year with
    | some yb, some ya => yb - ya
    | _, _ => 0
  | SortBy.citations => (b.citations_count : Int) - (a.citations_count : Int)
  | SortBy.alphabetical => jsLocaleCompare a.title b.title

/-- The memo `filteredAndSortedReferences` (lines 56–84): filter, then sort the
filtered copy.  The in-place `Array.prototype.sort` (stable in JavaScript
engines) is modelled by the stable `List.mergeSort`, ordered by
"comparator value ≤ 0" (`a` stays before `b` when the comparator does not
order `b` strictly first). -/
def filteredAndSortedReferences (references : List Reference) (searchTerm : String)
    (sortBy : SortBy) (filterYear : String) : List Reference :=
  let filtered := references.filter (matchesQuery searchTerm filterYear)
  filtered.mergeSort (fun a b => decide (sortCompare sortBy a b ≤ 0))

/-- The query pipeline with the post-state of the component's `references`
prop made explicit.  `Array.prototype.filter` allocates a fresh array and
the subsequent in-place `sort` mutates only that fresh array (its
receiver), so the `references` array observed after the computation is the
very array that was passed in, with all its records untouched. -/
def filteredAndSortedReferencesFrame (references : List Reference) (searchTerm : String)
    (sortBy : SortBy) (filterYear : String) : List Reference × List Reference :=
  let filtered := references.filter (matchesQuery searchTerm filterYear)
  let sorted := filtered.mergeSort (fun a b => decide (sortCompare sortBy a b ≤ 0))
  (sorted, references)

/-- The parseable years of a reference list:
`references.map(ref => parseInt(ref.year)).filter(year => !isNaN(year))`
(line 205). -/
def parsedYears (references : List Reference) : List Int :=
  references.filterMap (fun ref => jsParseInt ref.year)

/-- The helper `getYearRange` (lines 204–208): the empty list when no year parses,
otherwise `Array.from({length: max - min + 1}, (_, i) => min + i)` with
`min`/`max` the `Math.min`/`Math.max` of the parsed years. -/
def getYearRange (references : List Reference) : List Int :=
  match parsedYears references with
  | [] => []
  | List.cons y ys =>
    let mn := ys.foldl min y
    let mx := ys.foldl max y
    (List.range (mx - mn + 1).toNat).map (fun i : Nat => mn + (i : Int))

/-- The text `copyAllCitations` (lines 177–188) writes to the clipboard:
the formatted citations of the filtered-and-sorted list joined by a blank
line. -/
def copyAllCitationsText (references : List Reference) (searchTerm : String)
    (sortBy : SortBy) (filterYear : String) (citationStyle : String) : String :=
  let citations :=
    (filteredAndSortedReferences references searchTerm sortBy filterYear).map
      (fun ref => formatCitation ref citationStyle)
  String.intercalate "\n\n" citations

/-- The contents of the file `downloadCitations` (lines 190–202) downloads:
the formatted citations of the filtered-and-sorted list joined by a blank
line. -/
def downloadCitationsText (references : List Reference) (searchTerm : String)
    (sortBy : SortBy) (filterYear : String) (citationStyle : String) : String :=
  let citations :=
    (filteredAndSortedReferences references searchTerm sortBy filterYear).map
      (fun ref => formatCitation ref citationStyle)
  String.intercalate "\n\n" citations

/-- The name of the downloaded file: `references_${citationStyle}.txt`
(line 197). -/
def downloadCitationsFileName (citationStyle : String) : String :=
  "references_" ++ citationStyle ++ ".txt"

/-! ### Concrete references used by counterexamples and witnesses -/

/-- A reference whose `issue` field is absent while `pages` is present. -/
def chicagoSlipRef : Reference :=
  { id := "r1", title := "T", authors := ["A Smith"], journal := "J",
    year := "2021", pages := some "1-10" }

/-- A reference carrying a DOI. -/
def doiRef : Reference :=
  { id := "r2", title := "T", authors := ["A Smith"], journal := "J",
    year := "2021", doi := some "10.1/x" }

/-- A reference whose `journal` is the empty string. -/
def noJournalRef : Reference :=
  { id := "r3", title := "T", authors := ["A Smith"], journal := "",
    year := "2021" }

/-- The worked example of the spec (§8). -/
def apaExampleRef : Reference :=
  { id := "r4", title := "X", authors := ["A Smith", "B Lee"], journal := "J",
    year := "2021", volume := some "5", pages := some "1-10" }

/-- A reference list with years 2019, 2021, 2020. -/
def yearsDemoRefs : List Reference :=
  [{ id := "a", title := "P", authors := ["A"], journal := "", year := "2019" },
   { id := "b", title := "Q", authors := ["B"], journal := "", year := "2021" },
   { id := "c", title := "R", authors := ["C"], journal := "", year := "2020" }]

/-- A two-element reference list with citation counts 2 and 9. -/
def citationsDemoRefs : List Reference :=
  [{ id := "a", title := "P", authors := ["A"], journal := "", year := "2019",
     citations_count := 2 },
   { id := "b", title := "Q", authors := ["B"], journal := "", year := "2021",
     citations_count := 9 }]

/-! ### Helper lemmas -/

/-- The final DOI step of the apa and chicago branches: when the DOI is
present and non-empty, the branch output ends with the DOI link. -/
theorem doiStep_ends (c : String) (doi : Option String) (d : String)
    (hd : doi = some d) (hne : d ≠ "") :
    ∃ s, (if optTruthy doi then c ++ " https://doi.org/" ++ optInterp doi else c) =
      s ++ (" https://doi.org/" ++ d) := by
  subst hd
  refine ⟨c, ?_⟩
  simp [optTruthy, optInterp, hne, String.append_assoc]

/-- The empty search string case-insensitively matches every string. -/
theorem jsIncludes_empty (s : String) : jsIncludes s "" = true := by
  cases s with
  | mk data => cases data <;> simp [jsIncludes, containsSub, String.toList]

/-! ### C1 -/

/-- C1: the claim says the formatted citation never contains the literal
substring "undefined"; but the chicago branch interpolates the `issue`
field guarded only by `pages`, so a reference with pages and no issue is
rendered with the text "no. undefined".  This theorem evaluates the code at
that failing input. -/
theorem chicago_issue_undefined :
    formatCitation chicagoSlipRef "chicago" =
      "A Smith. \"T.\" J, no. undefined (2021): 1-10" ∧
    jsIncludes (formatCitation chicagoSlipRef "chicago") "undefined" = true := by
  constructor <;> rfl

/-! ### C3 -/

/-- C3 counterexample: for style mla and a reference whose `doi` is
present, the formatted citation does not contain the DOI link at all. -/
theorem mla_doi_missing :
    doiRef.doi = some "10.1/x" ∧
    jsIncludes (formatCitation doiRef "mla") "https://doi.org/" = false ∧
    jsIncludes (formatCitation doiRef "ieee") "https://doi.org/" = false := by
  refine ⟨rfl, ?_, ?_⟩ <;> rfl

/-- C3 amended: only the apa and chicago branches append the DOI; for those
two styles, whenever the `doi` field is present and non-empty, the
formatted citation ends with the DOI link (it is the last field
appended). -/
theorem formatCitation_doi_last (ref : Reference) (d : String)
    (hd : ref.doi = some d) (hne : d ≠ "") :
    (∃ s, formatCitation ref "apa" = s ++ (" https://doi.org/" ++ d)) ∧
    (∃ s, formatCitation ref "chicago" = s ++ (" https://doi.org/" ++ d)) := by
  constructor
  · have h : formatCitation ref "apa" = apaCitation ref := rfl
    rw [h]
    simp only [apaCitation]
    exact doiStep_ends _ _ _ hd hne
  · have h : formatCitation ref "chicago" = chicagoCitation ref := rfl
    rw [h]
    simp only [chicagoCitation]
    exact doiStep_ends _ _ _ hd hne

/-- Witness for the amended C3 at a concrete reference. -/
theorem formatCitation_doi_last_witness :
    doiRef.doi = some "10.1/x" ∧ "10.1/x" ≠ "" ∧
    ((∃ s, formatCitation doiRef "apa" = s ++ (" https://doi.org/" ++ "10.1/x")) ∧
     (∃ s, formatCitation doiRef "chicago" = s ++ (" https://doi.org/" ++ "10.1/x"))) :=
  ⟨rfl, by decide, formatCitation_doi_last doiRef "10.1/x" rfl (by decide)⟩

/-! ### C4 -/

/-- C4 counterexample: for a reference whose journal is the empty string,
the ieee branch skips the whole journal block, so the year does not appear
in the output at all (the claim says the year is present for every
reference, including an empty journal). -/
theorem ieee_year_missing_when_journal_empty :
    noJournalRef.journal = "" ∧ noJournalRef.year = "2021" ∧
    formatCitation noJournalRef "ieee" = "A Smith, \"T,\" " ∧
    jsIncludes (formatCitation noJournalRef "ieee") "2021" = false := by
  refine ⟨rfl, rfl, ?_, ?_⟩ <;> rfl

/-- C4 amended: for every reference whose journal is non-empty, the
ieee-formatted citation ends with ", year" appended after the pages; when
the journal is empty the year (with the rest of the journal block) is
omitted. -/
theorem ieee_ends_with_year (ref : Reference) (hj : strTruthy ref.journal = true) :
    ∃ s, formatCitation ref "ieee" = s ++ (", " ++ ref.year) := by
  have h : formatCitation ref "ieee" = ieeeCitation ref := rfl
  rw [h]
  simp only [ieeeCitation, hj, if_true]
  exact ⟨_, by rw [String.append_assoc]⟩

/-- Witness for the amended C4 at a concrete reference. -/
theorem ieee_ends_with_year_witness :
    strTruthy doiRef.journal = true ∧
    ∃ s, formatCitation doiRef "ieee" = s ++ (", " ++ doiRef.year) :=
  ⟨by decide, ieee_ends_with_year doiRef (by decide)⟩

/-! ### C5 -/

/-- C5: the spec's worked example — the reference with authors
["A Smith", "B Lee"], title "X", journal "J", year "2021", volume "5",
pages "1-10" and no doi/issue/url formats in apa style to exactly
"A Smith, & B Lee (2021). X. J, 5, 1-10". -/
theorem apa_example_exact :
    formatCitation apaExampleRef "apa" = "A Smith, & B Lee (2021). X. J, 5, 1-10" := by
  rfl

/-! ### C8 -/

/-- C8: for any style string outside {apa, mla, chicago, ieee} the switch
takes its default branch, so `formatCitation` is total there and returns
the authors joined by ", " followed by " (year). title. journal". -/
theorem formatCitation_default_fallback (ref : Reference) (style : String)
    (h1 : style ≠ "apa") (h2 : style ≠ "mla") (h3 : style ≠ "chicago")
    (h4 : style ≠ "ieee") :
    formatCitation ref style =
      String.intercalate ", " ref.authors ++ " (" ++ ref.year ++ "). " ++ ref.title
        ++ ". " ++ ref.journal := by
  simp [formatCitation, h1, h2, h3, h4, defaultCitation]

/-- Witness for C8 with the style string "harvard". -/
theorem formatCitation_default_fallback_witness :
    ("harvard" : String) ≠ "apa" ∧ ("harvard" : String) ≠ "mla" ∧
    ("harvard" : String) ≠ "chicago" ∧ ("harvard" : String) ≠ "ieee" ∧
    formatCitation doiRef "harvard" =
      String.intercalate ", " doiRef.authors ++ " (" ++ doiRef.year ++ "). "
        ++ doiRef.title ++ ". " ++ doiRef.journal :=
  ⟨by decide, by decide, by decide, by decide,
    formatCitation_default_fallback doiRef "harvard" (by decide) (by decide) (by decide)
      (by decide)⟩

/-! ### C2 -/

/-- C2: a reference of the input list appears in the pipeline output iff
the search term is empty or matches (case-insensitively, as a substring)
its title, one of its authors, or its journal, and the year filter is empty
or equals its year string.  The sort stage is a permutation, so membership
is decided by the filter stage alone; the empty-search disjunct of the
claim is subsumed by the code's title match because the empty string is a
substring of every string. -/
theorem mem_filteredAndSortedReferences_iff (references : List Reference)
    (searchTerm : String) (sortBy : SortBy) (filterYear : String) (ref : Reference)
    (href : ref ∈ references) :
    ref ∈ filteredAndSortedReferences references searchTerm sortBy filterYear ↔
      ((searchTerm = "" ∨
        jsIncludes (jsToLower ref.title) (jsToLower searchTerm) = true ∨
        (∃ author ∈ ref.authors, jsIncludes (jsToLower author) (jsToLower searchTerm) = true) ∨
        jsIncludes (jsToLower ref.journal) (jsToLower searchTerm) = true) ∧
       (filterYear = "" ∨ ref.year = filterYear)) := by
  unfold filteredAndSortedReferences
  rw [List.mem_mergeSort, List.mem_filter]
  simp only [href, true_and]
  unfold matchesQuery
  simp only [Bool.and_eq_true, Bool.or_eq_true, List.any_eq_true, beq_iff_eq]
  have hemp : searchTerm = "" →
      jsIncludes (jsToLower ref.title) (jsToLower searchTerm) = true := by
    intro hst
    subst hst
    exact jsIncludes_empty (jsToLower ref.title)
  constructor
  · rintro ⟨hs, hy⟩
    refine ⟨?_, hy⟩
    rcases hs with (h | h) | h
    · exact Or.inr (Or.inl h)
    · exact Or.inr (Or.inr (Or.inl h))
    · exact Or.inr (Or.inr (Or.inr h))
  · rintro ⟨hs, hy⟩
    refine ⟨?_, hy⟩
    rcases hs with hst | h | h | h
    · exact Or.inl (Or.inl (hemp hst))
    · exact Or.inl (Or.inl h)
    · exact Or.inl (Or.inr h)
    · exact Or.inr h

/-- Witness for C2 at a concrete list and query. -/
theorem mem_filteredAndSortedReferences_iff_witness :
    doiRef ∈ [doiRef, noJournalRef] ∧
    (doiRef ∈ filteredAndSortedReferences [doiRef, noJournalRef] "smith"
        SortBy.relevance "" ↔
      (("smith" : String) = "" ∨
        jsIncludes (jsToLower doiRef.title) (jsToLower "smith") = true ∨
        (∃ author ∈ doiRef.authors, jsIncludes (jsToLower author) (jsToLower "smith") = true) ∨
        jsIncludes (jsToLower doiRef.journal) (jsToLower "smith") = true) ∧
      (("" : String) = "" ∨ doiRef.year = "")) :=
  ⟨by decide,
    mem_filteredAndSortedReferences_iff [doiRef, noJournalRef] "smith" SortBy.relevance ""
      doiRef (by decide)⟩

/-! ### C6 -/

/-- The fold `foldl min` is bounded by its initial value. -/
theorem foldl_min_le_self : ∀ (ys : List Int) (y : Int), ys.foldl min y ≤ y
  | [], y => le_refl y
  | a :: ys, y => le_trans (foldl_min_le_self ys (min y a)) (min_le_left y a)

/-- The fold `foldl min` is bounded by every list element. -/
theorem foldl_min_le_mem : ∀ (ys : List Int) (y z : Int), z ∈ ys → ys.foldl min y ≤ z
  | a :: ys, y, z, hz => by
    rcases List.mem_cons.mp hz with h | h
    · subst h
      exact le_trans (foldl_min_le_self ys _) (min_le_right y _)
    · exact foldl_min_le_mem ys (min y a) z h

/-- The fold `foldl min` returns the initial value or a list element. -/
theorem foldl_min_mem : ∀ (ys : List Int) (y : Int), ys.foldl min y ∈ y :: ys
  | [], y => List.mem_cons_self y []
  | a :: ys, y => by
    simp only [List.foldl_cons]
    rcases List.mem_cons.mp (foldl_min_mem ys (min y a)) with h | h
    · rcases min_choice y a with hm | hm
      · rw [h, hm]; exact List.mem_cons_self _ _
      · rw [h, hm]; exact List.mem_cons.mpr (Or.inr (List.mem_cons_self _ _))
    · exact List.mem_cons.mpr (Or.inr (List.mem_cons.mpr (Or.inr h)))

/-- The fold `foldl max` dominates its initial value. -/
theorem le_foldl_max_self : ∀ (ys : List Int) (y : Int), y ≤ ys.foldl max y
  | [], y => le_refl y
  | a :: ys, y => le_trans (le_max_left y a) (le_foldl_max_self ys (max y a))

/-- The fold `foldl max` dominates every list element. -/
theorem le_foldl_max_mem : ∀ (ys : List Int) (y z : Int), z ∈ ys → z ≤ ys.foldl max y
  | a :: ys, y, z, hz => by
    rcases List.mem_cons.mp hz with h | h
    · subst h
      exact le_trans (le_max_right y _) (le_foldl_max_self ys _)
    · exact le_foldl_max_mem ys (max y a) z h

/-- The fold `foldl max` returns the initial value or a list element. -/
theorem foldl_max_mem : ∀ (ys : List Int) (y : Int), ys.foldl max y ∈ y :: ys
  | [], y => List.mem_cons_self y []
  | a :: ys, y => by
    simp only [List.foldl_cons]
    rcases List.mem_cons.mp (foldl_max_mem ys (max y a)) with h | h
    · rcases max_choice y a with hm | hm
      · rw [h, hm]; exact List.mem_cons_self _ _
      · rw [h, hm]; exact List.mem_cons.mpr (Or.inr (List.mem_cons_self _ _))
    · exact List.mem_cons.mpr (Or.inr (List.mem_cons.mpr (Or.inr h)))

/-- Unfolding equation for `getYearRange` when some year parses. -/
theorem getYearRange_cons (references : List Reference) (y : Int) (ys : List Int)
    (h : parsedYears references = y :: ys) :
    getYearRange references =
      (List.range ((ys.foldl max y) - (ys.foldl min y) + 1).toNat).map
        (fun i : Nat => (ys.foldl min y) + (i : Int)) := by
  unfold getYearRange
  rw [h]

/-- Membership in the arithmetic range built by `getYearRange`. -/
theorem mem_range_map_iff (mn mx k : Int) (hle : mn ≤ mx) :
    k ∈ (List.range (mx - mn + 1).toNat).map (fun i : Nat => mn + (i : Int)) ↔
      mn ≤ k ∧ k ≤ mx := by
  constructor
  · intro hk
    obtain ⟨i, hi, hk⟩ := List.mem_map.mp hk
    have hi2 := List.mem_range.mp hi
    omega
  · rintro ⟨h1, h2⟩
    exact List.mem_map.mpr ⟨(k - mn).toNat, List.mem_range.mpr (by omega), by omega⟩

/-- C6: `getYearRange` is empty when no reference has a parseable year, and
otherwise is exactly the gap-free, duplicate-free ascending sequence of
integers from the minimum to the maximum parsed year. -/
theorem getYearRange_spec (references : List Reference) :
    (parsedYears references = [] → getYearRange references = []) ∧
    (parsedYears references ≠ [] →
      ∃ mn mx : Int, mn ∈ parsedYears references ∧ mx ∈ parsedYears references ∧
        (∀ z ∈ parsedYears references, mn ≤ z ∧ z ≤ mx) ∧
        (∀ k : Int, k ∈ getYearRange references ↔ mn ≤ k ∧ k ≤ mx) ∧
        (getYearRange references).Pairwise (· < ·)) := by
  constructor
  · intro h
    unfold getYearRange
    rw [h]
  · intro h
    obtain ⟨y, ys, hys⟩ := List.exists_cons_of_ne_nil h
    have hmn_mem : ys.foldl min y ∈ parsedYears references := by
      rw [hys]; exact foldl_min_mem ys y
    have hmx_mem : ys.foldl max y ∈ parsedYears references := by
      rw [hys]; exact foldl_max_mem ys y
    have hbound : ∀ z ∈ parsedYears references, ys.foldl min y ≤ z ∧ z ≤ ys.foldl max y := by
      intro z hz
      rw [hys] at hz
      rcases List.mem_cons.mp hz with hz | hz
      · subst hz
        exact ⟨foldl_min_le_self ys z, le_foldl_max_self ys z⟩
      · exact ⟨foldl_min_le_mem ys y z hz, le_foldl_max_mem ys y z hz⟩
    have hle : ys.foldl min y ≤ ys.foldl max y :=
      le_trans (hbound y (by rw [hys]; exact List.mem_cons_self y ys)).1
        (hbound y (by rw [hys]; exact List.mem_cons_self y ys)).2
    refine ⟨ys.foldl min y, ys.foldl max y, hmn_mem, hmx_mem, hbound, ?_, ?_⟩
    · intro k
      rw [getYearRange_cons references y ys hys]
      exact mem_range_map_iff (ys.foldl min y) (ys.foldl max y) k hle
    · rw [getYearRange_cons references y ys hys]
      refine List.Pairwise.map _ (fun a b hab => ?_)
        (List.pairwise_lt_range ((ys.foldl max y) - (ys.foldl min y) + 1).toNat)
      show (ys.foldl min y) + (a : Int) < (ys.foldl min y) + (b : Int)
      omega

/-- Witness for C6: the empty list gives the empty range, and the demo list
with years [2019, 2021, 2020] is in the non-empty case. -/
theorem getYearRange_spec_witness :
    getYearRange [] = [] ∧
    (parsedYears yearsDemoRefs ≠ [] ∧
      ∃ mn mx : Int, mn ∈ parsedYears yearsDemoRefs ∧ mx ∈ parsedYears yearsDemoRefs ∧
        (∀ z ∈ parsedYears yearsDemoRefs, mn ≤ z ∧ z ≤ mx) ∧
        (∀ k : Int, k ∈ getYearRange yearsDemoRefs ↔ mn ≤ k ∧ k ≤ mx) ∧
        (getYearRange yearsDemoRefs).Pairwise (· < ·)) :=
  ⟨(getYearRange_spec []).1 rfl,
    by decide, (getYearRange_spec yearsDemoRefs).2 (by decide)⟩

/-! ### C7 -/

/-- C7: with sort key `citations`, every adjacent pair of the pipeline
output has non-increasing `citations_count`. -/
theorem filteredAndSorted_citations_desc (references : List Reference)
    (searchTerm filterYear : String) (i : Nat)
    (h : i + 1 <
      (filteredAndSortedReferences references searchTerm SortBy.citations filterYear).length) :
    ((filteredAndSortedReferences references searchTerm SortBy.citations filterYear).get
        ⟨i + 1, h⟩).citations_count ≤
    ((filteredAndSortedReferences references searchTerm SortBy.citations filterYear).get
        ⟨i, Nat.lt_of_succ_lt h⟩).citations_count := by
  have hp : (filteredAndSortedReferences references searchTerm SortBy.citations
      filterYear).Pairwise
      (fun a b => decide (sortCompare SortBy.citations a b ≤ 0) = true) := by
    unfold filteredAndSortedReferences
    refine List.sorted_mergeSort ?_ ?_ _
    · intro a b c hab hbc
      simp only [decide_eq_true_eq, sortCompare] at *
      omega
    · intro a b
      simp only [Bool.or_eq_true, decide_eq_true_eq, sortCompare]
      omega
  have hij := List.pairwise_iff_getElem.mp hp i (i + 1) (Nat.lt_of_succ_lt h) h
    (Nat.lt_succ_self i)
  simp only [decide_eq_true_eq, sortCompare] at hij
  simp only [List.get_eq_getElem]
  omega

/-- The pipeline output on the two-element demo list has two elements:
`mergeSort` preserves length and both references pass the empty filter. -/
theorem citationsDemoRefs_len :
    (filteredAndSortedReferences citationsDemoRefs "" SortBy.citations "").length = 2 := by
  simp only [filteredAndSortedReferences, List.length_mergeSort]
  rfl

/-- Witness for C7 at a concrete two-element list. -/
theorem filteredAndSorted_citations_desc_witness :
    ((filteredAndSortedReferences citationsDemoRefs "" SortBy.citations "").get
        ⟨1, by rw [citationsDemoRefs_len]; decide⟩).citations_count ≤
    ((filteredAndSortedReferences citationsDemoRefs "" SortBy.citations "").get
        ⟨0, by rw [citationsDemoRefs_len]; decide⟩).citations_count :=
  filteredAndSorted_citations_desc citationsDemoRefs "" "" 0
    (by rw [citationsDemoRefs_len]; decide)

/-! ### C10 -/

/-- C10: running the query pipeline leaves the `references` array exactly
as it was — filtering builds a fresh array and sorting mutates only that
fresh array — and the output is a permutation of the filtered copy of the
input, recomputed rather than carved out of it. -/
theorem filteredAndSortedReferencesFrame_spec (references : List Reference)
    (searchTerm : String) (sortBy : SortBy) (filterYear : String) :
    (filteredAndSortedReferencesFrame references searchTerm sortBy filterYear).2 =
      references ∧
    List.Perm (filteredAndSortedReferencesFrame references searchTerm sortBy filterYear).1
      (references.filter (matchesQuery searchTerm filterYear)) :=
  ⟨rfl, List.mergeSort_perm _ _⟩

/-! ### C9 -/

/-- C9: for every filtered-and-sorted list and selected style, the text
copied to the clipboard by copy-all equals the contents of the downloaded
file — both are the formatted citations joined by a blank line — and the
downloaded file is named `references_<style>.txt`. -/
theorem copyAll_eq_download (references : List Reference) (searchTerm : String)
    (sortBy : SortBy) (filterYear : String) (citationStyle : String) :
    copyAllCitationsText references searchTerm sortBy filterYear citationStyle =
      downloadCitationsText references searchTerm sortBy filterYear citationStyle ∧
    copyAllCitationsText references searchTerm sortBy filterYear citationStyle =
      String.intercalate "\n\n"
        ((filteredAndSortedReferences references searchTerm sortBy filterYear).map
          (fun ref => formatCitation ref citationStyle)) ∧
    downloadCitationsFileName citationStyle = "references_" ++ citationStyle ++ ".txt" :=
  ⟨rfl, rfl, rfl⟩
